import Mathlib

/-!
# Verification of the exam4 process-pipeline orchestrator

Shallow embedding of `src/01/picoshell/picoshell.c` (`picoshell`),
`src/unnamed/part_002` (`sandbox`) and `src/01/ft_popen` (`ft_popen` /
`fd_popen`), together with proofs about the embedded definitions.

The embedding models kernel objects abstractly:
* a pipe created as the `c`-th `pipe(2)` call of the run yields the two
  endpoints `⟨c, read⟩` (= `pipefd[0]`) and `⟨c, write⟩` (= `pipefd[1]`);
* the multiset of call-created descriptors a process holds open is a
  `List Endpoint`, `close(2)` is `List.erase`;
* a child's termination is `exited code` (normal termination, observed via
  `WIFEXITED`/`WEXITSTATUS`) or `signaled sig` (killed by a fatal signal,
  observed via `WIFSIGNALED`/`WTERMSIG`);
* syscall success/failure of `pipe(2)` and `fork(2)` at stage `i` is an
  oracle `Nat → Bool`, and the order in which `wait(2)` reaps the spawned
  children is an explicit list `ord` of stage indices.
-/

/-- Direction of a pipe endpoint: `pipefd[0]` is the read end,
`pipefd[1]` the write end. -/
inductive Dir
  | read
  | write
deriving DecidableEq, Repr

/-- One endpoint of one kernel channel: `chan` numbers the `pipe(2)` call
that created it (0-based), `dir` selects the end. -/
structure Endpoint where
  chan : Nat
  dir : Dir
deriving DecidableEq, Repr

/-- How one child terminated, as the parent observes it through the
`wait`-family status macros. -/
inductive ChildStatus
  | exited (code : Nat)
  | signaled (sig : Nat)
deriving DecidableEq, Repr

/-- The test `WIFEXITED(status) && WEXITSTATUS(status) != 0` from the
wait loop of `picoshell` (picoshell.c line 140). Note that a signaled
child makes `WIFEXITED` false, so it fails this test. -/
def ChildStatus.failsWait : ChildStatus → Bool
  | .exited code => code != 0
  | .signaled _ => false

/-- The wait loop of `picoshell` (picoshell.c lines 138-142):
`exit_code` starts at 0 and is set to 1 by every reaped status that
passes `failsWait`; the statuses arrive in the given (OS-chosen) order. -/
def waitLoop (sts : List ChildStatus) : Nat :=
  sts.foldl (fun ec st => if st.failsWait then 1 else ec) 0

/-- What one forked child did before `execvp`: which endpoint its standard
input was rebound to (`none` = left untouched), which endpoint its standard
output was rebound to, and which call-created descriptors it still held
open as plain (non-std-stream) descriptors at the moment of `execvp`. -/
structure Child where
  stdinB : Option Endpoint
  stdoutB : Option Endpoint
  leftOpen : List Endpoint
deriving DecidableEq, Repr

/-- The child branch of `picoshell` (picoshell.c lines 75-109).
`inherited` is the multiset of call-created descriptors open in the parent
at `fork` time, `prev` is `prev_fd` (`none` = `-1`), `pipe2` is the pipe
created this iteration, if any. The child rebinds stdin to `prev` and
closes it (lines 82-87), then if a next command exists closes `pipefd[0]`,
rebinds stdout to `pipefd[1]` and closes it (lines 94-100). -/
def childWire (inherited : List Endpoint) (prev : Option Endpoint)
    (pipe2 : Option (Endpoint × Endpoint)) : Child :=
  let o1 : List Endpoint :=
    match prev with
    | some e => inherited.erase e
    | none => inherited
  match pipe2 with
  | some rw => ⟨prev, some rw.2, (o1.erase rw.1).erase rw.2⟩
  | none => ⟨prev, none, o1⟩

/-- The orchestrator state of `picoshell`'s launch loop:
`prevFd` is the C variable `prev_fd` (`none` = `-1`; the C variable may
retain a stale closed descriptor after the last iteration, exactly as the
source does), `opens` is the multiset of call-created descriptors the
parent currently holds open, `nextChan` counts pipes created, `children`
records the forked children in launch order. -/
structure LoopSt where
  prevFd : Option Endpoint
  opens : List Endpoint
  nextChan : Nat
  children : List Child
deriving DecidableEq, Repr

/-- State before the first iteration: `prev_fd = -1`, nothing open. -/
def initSt : LoopSt := ⟨none, [], 0, []⟩

/-- One successful iteration of `picoshell`'s launch loop (picoshell.c
lines 50-130) for a stage whose `cmds[i + 1]` test is `hasNext`:
create the pipe if `hasNext` (line 57), fork the child (lines 75-109,
`childWire`), then in the parent close `prev_fd` if it exists
(lines 120-121) and, if `hasNext`, close the new write end and save the
new read end into `prev_fd` (lines 123-127). -/
def stepOk (s : LoopSt) (hasNext : Bool) : LoopSt :=
  let pipe2 : Option (Endpoint × Endpoint) :=
    if hasNext then some (⟨s.nextChan, .read⟩, ⟨s.nextChan, .write⟩) else none
  let opens0 : List Endpoint :=
    match pipe2 with
    | some rw => s.opens ++ [rw.1, rw.2]
    | none => s.opens
  let nc : Nat :=
    match pipe2 with
    | some _ => s.nextChan + 1
    | none => s.nextChan
  let child : Child := childWire opens0 s.prevFd pipe2
  let opens1 : List Endpoint :=
    match s.prevFd with
    | some e => opens0.erase e
    | none => opens0
  match pipe2 with
  | some rw => ⟨some rw.1, opens1.erase rw.2, nc, s.children ++ [child]⟩
  | none => ⟨s.prevFd, opens1, nc, s.children ++ [child]⟩

/-- Observable outcome of one `picoshell` call: the returned value, the
call-created descriptors the parent still holds open at return, how many
children were forked, whether the wait loop ran (every spawned child
reaped) before returning, and how many pipes were created. -/
structure RunResult where
  ret : Nat
  parentOpen : List Endpoint
  spawned : Nat
  drained : Bool
  chans : Nat
deriving DecidableEq, Repr

/-- The body of `picoshell` (picoshell.c lines 50-144), recursing on the
number of remaining stages (`rem + 1` remaining means `cmds[i]` exists and
`hasNext = (cmds[i+1] != NULL)` is `rem != 0`).
* If `pipe` fails (line 57-58) the call returns 1 at once: nothing is
  closed and no wait happens.
* If `fork` fails (lines 63-73) the call closes only the two endpoints of
  the pipe created this iteration and returns 1 without waiting.
* Otherwise the iteration is `stepOk` and the loop continues.
* When no stage remains, the wait loop reaps every child in the order
  `ord` (a permutation of the spawned stage indices chosen by the OS) and
  returns `exit_code`. -/
def picoshellRun (pipeOk forkOk : Nat → Bool) (status : Nat → ChildStatus)
    (ord : List Nat) : Nat → Nat → LoopSt → RunResult
  | 0, _, s =>
    ⟨waitLoop (ord.map status), s.opens, s.children.length, true, s.nextChan⟩
  | rem + 1, i, s =>
    let hasNext : Bool := rem != 0
    if hasNext && !pipeOk i then
      ⟨1, s.opens, s.children.length, false, s.nextChan⟩
    else if forkOk i then
      picoshellRun pipeOk forkOk status ord rem (i + 1) (stepOk s hasNext)
    else
      let nc : Nat := if hasNext then s.nextChan + 1 else s.nextChan
      let opens1 : List Endpoint :=
        if hasNext then
          ((s.opens ++ [(⟨s.nextChan, .read⟩ : Endpoint), ⟨s.nextChan, .write⟩]).erase
              (⟨s.nextChan, .read⟩ : Endpoint)).erase ⟨s.nextChan, .write⟩
        else s.opens
      ⟨1, opens1, s.children.length, false, nc⟩

/-- `picoshell(cmds)` for a pipeline of `n` stages (`cmds[n] == NULL`),
with syscall oracles, per-stage termination statuses, and OS reap order. -/
def picoshell (n : Nat) (pipeOk forkOk : Nat → Bool)
    (status : Nat → ChildStatus) (ord : List Nat) : RunResult :=
  picoshellRun pipeOk forkOk status ord n 0 initSt

/-- The launch-loop state of `picoshell` at iteration boundary `k`
(after `k` stages of a `total`-stage pipeline have been launched), on the
path where every syscall succeeds: stage `k` (if any) sees
`hasNext = (k + 1 < total)`. -/
def iterOk (total : Nat) : Nat → LoopSt
  | 0 => initSt
  | k + 1 => stepOk (iterOk total k) (decide (k + 1 < total))

/-- Folding the successful loop body over `rem` further stages, starting
from state `s` (`rem + 1` remaining means `hasNext = (rem != 0)`). -/
def iterFromOk (s : LoopSt) : Nat → LoopSt
  | 0 => s
  | rem + 1 => iterFromOk (stepOk s (rem != 0)) rem

/-- Closed form of `prev_fd` at iteration boundary `k` of a `total`-stage
run: `-1` before the first stage, the read end of the most recent pipe
while stages remain, and after the last stage the stale (already closed)
descriptor the C variable still holds. -/
def expectedPrev (total k : Nat) : Option Endpoint :=
  if k = 0 then none
  else if k < total then some ⟨k - 1, .read⟩
  else if 2 ≤ total then some ⟨total - 2, .read⟩
  else none

/-- Closed form of the parent's open call-created descriptors at boundary
`k`: exactly the pending read endpoint while stages remain, nothing
before the first stage or after the last. -/
def expectedOpens (total k : Nat) : List Endpoint :=
  if 0 < k ∧ k < total then [⟨k - 1, .read⟩] else []

/-- Closed form of the number of pipes created by the first `k`
iterations: one per iteration except the last stage's. -/
def expectedChans (total k : Nat) : Nat :=
  if k < total then k else total - 1

/-- Closed form of the wiring performed by the child of stage `j` in a
`total`-stage pipeline. -/
def expectedChild (total j : Nat) : Child :=
  ⟨if j = 0 then none else some ⟨j - 1, .read⟩,
   if j + 1 < total then some ⟨j, .write⟩ else none, []⟩

/-- Closed form of the whole launch-loop state at boundary `k`. -/
def expectedState (total k : Nat) : LoopSt :=
  ⟨expectedPrev total k, expectedOpens total k, expectedChans total k,
   (List.range k).map (expectedChild total)⟩

/-! ## The sandbox supervisor (src/unnamed/part_002) -/

/-- What the parent's first `waitpid` call observes (part_002 line 112):
the child's termination status, or `-1` with `errno == EINTR` because the
`SIGALRM` deadline fired first, or `-1` for any other reason. -/
inductive WaitOutcome
  | completed (st : ChildStatus)
  | interrupted
  | failed
deriving DecidableEq, Repr

/-- Process-management actions the sandbox performs on its child after
the first `waitpid` returns. -/
inductive SAction
  | killChild (sig : Nat)
  | reap
deriving DecidableEq, Repr

/-- Signal number of `SIGKILL`. -/
def SIGKILL : Nat := 9

/-- Outcome of one `sandbox` call: the returned verdict and the
child-management actions taken before returning, in order. -/
structure SandboxRun where
  ret : Int
  actions : List SAction
deriving DecidableEq, Repr

/-- `sandbox(f, timeout, verbose)` from part_002 lines 47-171 (the
`verbose` printing is omitted: it does not affect the verdict or the
process management). `forkOk` is whether `fork` succeeds, `w` what the
first `waitpid` observes. On `EINTR` (deadline expired) the sandbox kills
the child with `SIGKILL`, reaps it with a second `waitpid`, and returns 0
(lines 112-128); a non-`EINTR` `waitpid` failure returns -1 (line 129);
an exit code of 0 returns 1, any other exit code returns 0, a fatal
signal returns 0 (lines 136-168); anything else would return -1. -/
def sandbox (forkOk : Bool) (w : WaitOutcome) : SandboxRun :=
  if !forkOk then ⟨-1, []⟩
  else
    match w with
    | .interrupted => ⟨0, [.killChild SIGKILL, .reap]⟩
    | .failed => ⟨-1, []⟩
    | .completed (.exited code) => if code = 0 then ⟨1, []⟩ else ⟨0, []⟩
    | .completed (.signaled _) => ⟨0, []⟩

/-! ## The single-stage launcher (src/01/ft_popen) -/

/-- Outcome of one `ft_popen`/`fd_popen` call: the returned descriptor
(or -1), how many pipes were created, and whether a child was forked.
In the model the created pipe's read end is descriptor 0 and its write
end descriptor 1. -/
structure PopenRun where
  ret : Int
  pipesCreated : Nat
  forked : Bool
deriving DecidableEq, Repr

/-- `ft_popen(file, argv, type)` from src/01/ft_popen/practice.c:
`fileNull`/`argvNull` say whether the two pointer arguments are `NULL`.
Input validation (lines 6-7) returns -1 before `pipe` or `fork`; then a
`pipe` failure returns -1 (line 10), a `fork` failure closes both ends
and returns -1 (lines 14-19), and otherwise the parent closes the unused
end and returns the end selected by `type` (lines 38-47). -/
def ft_popen (fileNull argvNull : Bool) (type : Char)
    (pipeOk forkOk : Bool) : PopenRun :=
  if fileNull || argvNull || (type != 'r' && type != 'w') then ⟨-1, 0, false⟩
  else if !pipeOk then ⟨-1, 0, false⟩
  else if !forkOk then ⟨-1, 1, false⟩
  else if type = 'r' then ⟨0, 1, true⟩
  else ⟨1, 1, true⟩

/-- `fd_popen(file, argv, type)` from src/01/ft_popen/ft_popen.c
(lines 17-93): the same code as `ft_popen` line for line, in particular
the same input validation at lines 21-22. -/
def fd_popen (fileNull argvNull : Bool) (type : Char)
    (pipeOk forkOk : Bool) : PopenRun :=
  if fileNull || argvNull || (type != 'r' && type != 'w') then ⟨-1, 0, false⟩
  else if !pipeOk then ⟨-1, 0, false⟩
  else if !forkOk then ⟨-1, 1, false⟩
  else if type = 'r' then ⟨0, 1, true⟩
  else ⟨1, 1, true⟩

/-! ## Helper lemmas -/

theorem waitLoop_foldl (l : List ChildStatus) :
    ∀ acc : Nat, l.foldl (fun ec st => if st.failsWait then 1 else ec) acc =
      if l.any ChildStatus.failsWait then 1 else acc := by
  induction l with
  | nil => intro acc; simp
  | cons st l ih =>
    intro acc
    cases hst : st.failsWait <;> cases hl : l.any ChildStatus.failsWait <;>
      simp [List.foldl_cons, List.any_cons, hst, hl, ih]

/-- The aggregate verdict of the wait loop is 1 exactly when some reaped
status passes the `WIFEXITED && WEXITSTATUS != 0` test; in particular it
does not depend on the order in which the statuses are reaped. -/
theorem waitLoop_eq_any (l : List ChildStatus) :
    waitLoop l = if l.any ChildStatus.failsWait then 1 else 0 :=
  waitLoop_foldl l 0

/-- On the all-syscalls-succeed path, `picoshellRun` launches every stage
(folding `stepOk`), then drains and aggregates. -/
theorem picoshellRun_ok_eq (status : Nat → ChildStatus) (ord : List Nat) :
    ∀ (rem i : Nat) (s : LoopSt),
      picoshellRun (fun _ => true) (fun _ => true) status ord rem i s =
        ⟨waitLoop (ord.map status), (iterFromOk s rem).opens,
         (iterFromOk s rem).children.length, true, (iterFromOk s rem).nextChan⟩ := by
  intro rem
  induction rem with
  | zero => intro i s; rfl
  | succ rem ih =>
    intro i s
    simp only [picoshellRun, Bool.not_true, Bool.and_false, if_false, if_true,
      iterFromOk]
    exact ih (i + 1) (stepOk s (rem != 0))

theorem iterFromOk_iterOk (total : Nat) :
    ∀ d k, k + d = total → iterFromOk (iterOk total k) d = iterOk total total := by
  intro d
  induction d with
  | zero =>
    intro k hk
    have : k = total := by omega
    subst this
    rfl
  | succ d ih =>
    intro k hk
    have hb : (d != 0) = decide (k + 1 < total) := by
      cases d with
      | zero =>
        have h1 : ¬ (k + 1 < total) := by omega
        simp [h1]
      | succ d =>
        have h1 : k + 1 < total := by omega
        simp [h1]
    show iterFromOk (stepOk (iterOk total k) (d != 0)) d = iterOk total total
    rw [hb]
    have hs : stepOk (iterOk total k) (decide (k + 1 < total)) = iterOk total (k + 1) := rfl
    rw [hs]
    exact ih (k + 1) (by omega)

/-- A successful `n`-stage `picoshell` call returns the wait-loop verdict,
leaves the parent with the final loop state's descriptors, spawns one
child per stage, and drains them all. -/
theorem picoshell_ok_shape (n : Nat) (status : Nat → ChildStatus) (ord : List Nat) :
    picoshell n (fun _ => true) (fun _ => true) status ord =
      ⟨waitLoop (ord.map status), (iterOk n n).opens,
       (iterOk n n).children.length, true, (iterOk n n).nextChan⟩ := by
  have h2 : iterFromOk initSt n = iterOk n n := by
    have h0 : initSt = iterOk n 0 := rfl
    rw [h0]
    exact iterFromOk_iterOk n n 0 (by omega)
  rw [picoshell, picoshellRun_ok_eq status ord n 0 initSt, h2]

/-- Closed form of the launch-loop state at every iteration boundary of a
successful run. -/
theorem iterOk_eq (total : Nat) :
    ∀ k, k ≤ total → iterOk total k = expectedState total k := by
  intro k
  induction k with
  | zero =>
    intro _
    have hch : expectedChans total 0 = 0 := by
      unfold expectedChans; split <;> omega
    show initSt = _
    simp [expectedState, expectedPrev, expectedOpens, hch, initSt]
  | succ k ih =>
    intro hk
    have hk' : k ≤ total := by omega
    show stepOk (iterOk total k) (decide (k + 1 < total)) = _
    rw [ih hk']
    by_cases h2 : k + 1 < total
    · have hdec : decide (k + 1 < total) = true := by simp [h2]
      rw [hdec]
      rcases Nat.eq_zero_or_pos k with hk0 | hk0
      · subst hk0
        have h0 : (0 : Nat) < total := by omega
        have h1 : (1 : Nat) < total := by omega
        have hA : expectedState total 0 = ⟨none, [], 0, []⟩ := by
          simp [expectedState, expectedPrev, expectedOpens, expectedChans, h0]
        have hB : expectedState total 1 =
            ⟨some ⟨0, Dir.read⟩, [⟨0, Dir.read⟩], 1,
             [⟨none, some ⟨0, Dir.write⟩, []⟩]⟩ := by
          simp [expectedState, expectedPrev, expectedOpens, expectedChans,
            expectedChild, h1, List.range_succ, List.range_zero]
        rw [hA, hB]
        decide
      · have hk0' : k ≠ 0 := by omega
        have hklt : k < total := by omega
        have hC : expectedState total k =
            ⟨some ⟨k - 1, Dir.read⟩, [⟨k - 1, Dir.read⟩], k,
             (List.range k).map (expectedChild total)⟩ := by
          simp [expectedState, expectedPrev, expectedOpens, expectedChans,
            hk0', hklt, hk0]
        have hD : expectedState total (k + 1) =
            ⟨some ⟨k, Dir.read⟩, [⟨k, Dir.read⟩], k + 1,
             (List.range k).map (expectedChild total) ++
               [⟨some ⟨k - 1, Dir.read⟩, some ⟨k, Dir.write⟩, []⟩]⟩ := by
          simp [expectedState, expectedPrev, expectedOpens, expectedChans,
            expectedChild, h2, hk0', List.range_succ]
        rw [hC, hD]
        simp [stepOk, childWire]
    · have h3 : k + 1 = total := by omega
      have hdec : decide (k + 1 < total) = false := by simp [h2]
      rw [hdec]
      rcases Nat.eq_zero_or_pos k with hk0 | hk0
      · subst hk0
        have h4 : total = 1 := by omega
        subst h4
        decide
      · have hk0' : k ≠ 0 := by omega
        have hklt : k < total := by omega
        have hC : expectedState total k =
            ⟨some ⟨k - 1, Dir.read⟩, [⟨k - 1, Dir.read⟩], k,
             (List.range k).map (expectedChild total)⟩ := by
          simp [expectedState, expectedPrev, expectedOpens, expectedChans,
            hk0', hklt, hk0]
        have hD : expectedState total (k + 1) =
            ⟨some ⟨k - 1, Dir.read⟩, [], k,
             (List.range k).map (expectedChild total) ++
               [⟨some ⟨k - 1, Dir.read⟩, none, []⟩]⟩ := by
          have h6 : 2 ≤ total := by omega
          have h7 : total - 2 = k - 1 := by omega
          have h8 : total - 1 = k := by omega
          simp [expectedState, expectedPrev, expectedOpens, expectedChans,
            expectedChild, h2, h6, h7, h8, hk0', List.range_succ]
        rw [hC, hD]
        simp [stepOk, childWire]

/-! ## Claims -/

/-- C1: the claim says a stage killed by an uncaught fatal signal makes
the verdict `failure` (1). The code's wait loop only tests
`WIFEXITED(status) && WEXITSTATUS(status) != 0`, so a signaled stage
contributes nothing: in a two-stage pipeline whose second stage is killed
by SIGTERM (15) while the first exits 0, `picoshell` returns 0, not 1. -/
theorem picoshell_signaled_stage_verdict :
    picoshell 2 (fun _ => true) (fun _ => true)
      (fun j => if j = 0 then ChildStatus.exited 0 else ChildStatus.signaled 15)
      [0, 1] = ⟨0, [], 2, true, 1⟩ := by decide

/-- C2: for every pipeline whose construction succeeds (all `pipe` and
`fork` calls succeed) and whose stages all terminate normally with exit
code 0, `picoshell` returns 0, whatever order the OS reaps the
children in. -/
theorem picoshell_all_zero_success (n : Nat) (status : Nat → ChildStatus)
    (ord : List Nat) (hord : ord.Perm (List.range n))
    (hst : ∀ j, j < n → status j = ChildStatus.exited 0) :
    (picoshell n (fun _ => true) (fun _ => true) status ord).ret = 0 := by
  rw [picoshell_ok_shape]
  show waitLoop (ord.map status) = 0
  rw [waitLoop_eq_any]
  have hany : (ord.map status).any ChildStatus.failsWait = false := by
    simp only [List.any_eq_false, List.mem_map]
    rintro st ⟨j, hj, rfl⟩
    have hjn : j < n := List.mem_range.mp (hord.mem_iff.mp hj)
    rw [hst j hjn]
    simp [ChildStatus.failsWait]
  rw [hany]
  rfl

/-- Witness for C2: a concrete two-stage all-zero pipeline reaped in
reverse order returns 0. -/
theorem picoshell_all_zero_success_witness :
    (([1, 0] : List Nat).Perm (List.range 2) ∧
      ∀ j, j < 2 → (fun _ => ChildStatus.exited 0) j = ChildStatus.exited 0) ∧
    (picoshell 2 (fun _ => true) (fun _ => true)
        (fun _ => ChildStatus.exited 0) [1, 0]).ret = 0 :=
  ⟨⟨by decide, by decide⟩,
   picoshell_all_zero_success 2 (fun _ => ChildStatus.exited 0) [1, 0]
     (by decide) (by decide)⟩

/-- C3: the claim says that when `fork` fails at stage `i > 0`,
`picoshell` releases all endpoints it holds and still drains every
already-spawned child. In the code the `fork`-failure path (lines 64-73)
closes only the endpoints of the pipe created this iteration and returns
1 immediately: in a two-stage pipeline whose second `fork` fails,
`picoshell` returns with the first channel's read endpoint (`prev_fd`)
still open and the stage-0 child never waited for (`drained := false`). -/
theorem picoshell_fork_fail_leak :
    picoshell 2 (fun _ => true) (fun j => decide (j = 0))
      (fun _ => ChildStatus.exited 0) [] =
      ⟨1, [⟨0, Dir.read⟩], 1, false, 1⟩ := by decide

/-- C4: the claim says that when `pipe` fails at stage `i`, `picoshell`
releases every endpoint created so far (including `prev_fd`) and cleans
up the processes created so far. In the code the `pipe`-failure path
(lines 57-58) is a bare `return 1`: in a three-stage pipeline whose
second `pipe` call fails, `picoshell` returns with `prev_fd` (the first
channel's read endpoint) still open and the stage-0 child never waited
for (`drained := false`). -/
theorem picoshell_pipe_fail_leak :
    picoshell 3 (fun j => decide (j = 0)) (fun _ => true)
      (fun _ => ChildStatus.exited 0) [] =
      ⟨1, [⟨0, Dir.read⟩], 1, false, 1⟩ := by decide

/-- C5: at every iteration boundary `k` of the launch loop of a
`total`-stage pipeline (on the successful-construction path), the parent
holds open at most one call-created endpoint, that endpoint is the
pending read endpoint stored in `prev_fd` (so it holds zero write
endpoints), and after the last stage is launched it holds none at all. -/
theorem picoshell_parent_endpoint_invariant (total k : Nat) (hk : k ≤ total) :
    ((iterOk total k).opens.length ≤ 1 ∧
      ∀ e ∈ (iterOk total k).opens,
        (iterOk total k).prevFd = some e ∧ e.dir = Dir.read) ∧
    (k = total → (iterOk total k).opens = []) := by
  rw [iterOk_eq total k hk]
  by_cases h : 0 < k ∧ k < total
  · have hk0 : k ≠ 0 := by omega
    simp [expectedState, expectedOpens, expectedPrev, h, hk0]
    omega
  · simp [expectedState, expectedOpens, h]

/-- Witness for C5: the invariant at boundary 2 of a 3-stage pipeline. -/
theorem picoshell_parent_endpoint_invariant_witness :
    2 ≤ 3 ∧
    (((iterOk 3 2).opens.length ≤ 1 ∧
      ∀ e ∈ (iterOk 3 2).opens,
        (iterOk 3 2).prevFd = some e ∧ e.dir = Dir.read) ∧
    (2 = 3 → (iterOk 3 2).opens = [])) :=
  ⟨by decide, picoshell_parent_endpoint_invariant 3 2 (by decide)⟩

/-- C6: in the child of stage `j` of a `total`-stage pipeline, before
`execvp`: stdin is rebound to the previous channel's read endpoint
exactly when `j` is not the first stage (the first stage leaves stdin
untouched), stdout is rebound to the new channel's write endpoint exactly
when `j` is not the last stage (the last stage leaves stdout untouched),
and every other call-created descriptor the child inherited — the
closed `prev_fd` handle, the new channel's read endpoint, and the
original write-endpoint handle — has been closed (`leftOpen = []`). -/
theorem picoshell_child_wiring (total j : Nat) (hj : j < total) :
    ((iterOk total total).children)[j]? =
      some ⟨if j = 0 then none else some ⟨j - 1, Dir.read⟩,
            if j + 1 < total then some ⟨j, Dir.write⟩ else none, []⟩ := by
  rw [iterOk_eq total total le_rfl]
  show ((List.range total).map (expectedChild total))[j]? = _
  rw [List.getElem?_map, List.getElem?_range hj]
  rfl

/-- Witness for C6: the wiring of the middle stage of a 3-stage
pipeline. -/
theorem picoshell_child_wiring_witness :
    1 < 3 ∧
    ((iterOk 3 3).children)[1]? =
      some ⟨if 1 = 0 then none else some ⟨1 - 1, Dir.read⟩,
            if 1 + 1 < 3 then some ⟨1, Dir.write⟩ else none, []⟩ :=
  ⟨by decide, picoshell_child_wiring 3 1 (by decide)⟩

/-- C7: the claim says a single-stage pipeline allocates no channel (the
`chans := 0` component below, which the code satisfies) and returns 1
whenever the stage does not exit zero. But when the single stage is
killed by SIGSEGV (11) the wait loop's `WIFEXITED` test is false, so the
code returns 0 where the claim requires 1. -/
theorem picoshell_single_stage_signaled :
    picoshell 1 (fun _ => true) (fun _ => true)
      (fun _ => ChildStatus.signaled 11) [0] = ⟨0, [], 1, true, 0⟩ := by decide

/-- C8 counterexample: for `cmds[0] == NULL` (zero stages) the claim says
`picoshell` returns an error result; the code performs no such input
validation — the launch loop body never runs, the wait loop finds no
children, and the call returns 0 (the success verdict). -/
theorem picoshell_zero_stages_counterexample :
    (picoshell 0 (fun _ => true) (fun _ => true)
      (fun _ => ChildStatus.exited 0) []).ret = 0 := by decide

/-- C8 (amended): when `picoshell` is given zero stages it launches
nothing, creates no channel, drains the (empty) set of children, and
returns 0 (success), for every syscall oracle and status assignment. -/
theorem picoshell_zero_stages_success (pipeOk forkOk : Nat → Bool)
    (status : Nat → ChildStatus) :
    picoshell 0 pipeOk forkOk status [] = ⟨0, [], 0, true, 0⟩ := rfl

/-- C9: the sandbox's verdict is always exactly one of acceptable (1),
rejected (0) or supervisor error (-1); and when the unit of work does not
terminate before the deadline (the first `waitpid` is interrupted by the
timer, `errno == EINTR`), the sandbox kills the child with SIGKILL,
drains its termination notification with a second `waitpid`, and returns
the rejected verdict 0. -/
theorem sandbox_verdicts :
    (∀ (forkOk : Bool) (w : WaitOutcome),
      (sandbox forkOk w).ret = 1 ∨ (sandbox forkOk w).ret = 0 ∨
        (sandbox forkOk w).ret = -1) ∧
    sandbox true WaitOutcome.interrupted =
      ⟨0, [SAction.killChild SIGKILL, SAction.reap]⟩ := by
  refine ⟨?_, rfl⟩
  intro forkOk w
  cases forkOk
  · simp [sandbox]
  · cases w with
    | completed st =>
      cases st with
      | exited code => by_cases hc : code = 0 <;> simp [sandbox, hc]
      | signaled sig => simp [sandbox]
    | interrupted => simp [sandbox]
    | failed => simp [sandbox]

/-- C10: when `file` is NULL, or `argv` is NULL, or the mode flag is
neither `r` nor `w`, both `ft_popen` (practice.c) and `fd_popen`
(ft_popen.c) return -1 without creating a pipe or forking a child,
regardless of whether `pipe`/`fork` would have succeeded. -/
theorem popen_invalid_input (fileNull argvNull : Bool) (type : Char)
    (pipeOk forkOk : Bool)
    (h : fileNull = true ∨ argvNull = true ∨ (type ≠ 'r' ∧ type ≠ 'w')) :
    ft_popen fileNull argvNull type pipeOk forkOk = ⟨-1, 0, false⟩ ∧
    fd_popen fileNull argvNull type pipeOk forkOk = ⟨-1, 0, false⟩ := by
  have hc : (fileNull || argvNull || (type != 'r' && type != 'w')) = true := by
    rcases h with h | h | ⟨h1, h2⟩
    · simp [h]
    · simp [h]
    · simp [h1, h2]
  constructor <;> simp [ft_popen, fd_popen, hc]

/-- Witness for C10: an invalid mode flag on otherwise healthy
syscalls. -/
theorem popen_invalid_input_witness :
    ('x' ≠ 'r' ∧ 'x' ≠ 'w') ∧
    (ft_popen false false 'x' true true = ⟨-1, 0, false⟩ ∧
     fd_popen false false 'x' true true = ⟨-1, 0, false⟩) :=
  ⟨by decide, popen_invalid_input false false 'x' true true
    (Or.inr (Or.inr (by decide)))⟩
